import Mathlib

/-!
Verification of the Complex.js core (src/complex.js, v2.4.3) against its
natural-language specification.

The embedding models an IEEE double as a `JSNum`: either NaN, a signed
infinity, or a finite value.  Finite values are represented by rationals;
rounding and overflow of doubles are not modelled, which is adequate here
because every claim under study concerns branch structure, pole/NaN
propagation, tolerance comparison and formatting, none of which depend on
rounding of in-range finite results.  Negative zero is collapsed into `0`
(no claim distinguishes `-0` from `0`).

Transcendental primitives of the host (`Math.exp`, `Math.log`, `Math.cos`,
`Math.sin`, `Math.atan2`, `Math.pow`) are not code of this repository; the
functions that call them are parameterised by an interpretation `TOps` of
those primitives, and every structural theorem quantifies over all
interpretations.  The mathematical meaning of `Math.atan2` on the reals is
modelled separately as `atan2R` for the one claim that depends on it.
-/

/-- A JavaScript number: NaN, +Infinity / -Infinity, or a finite value
(modelled as a rational; `inf true` is `+Infinity`). -/
inductive JSNum where
  | nan : JSNum
  | inf : Bool → JSNum
  | fin : ℚ → JSNum
deriving DecidableEq

namespace JSNum

/-- The host `isFinite` predicate on numbers. -/
def isFiniteN : JSNum → Bool
  | fin _ => true
  | _ => false

/-- The host `isNaN` predicate on numbers. -/
def isNaNN : JSNum → Bool
  | nan => true
  | _ => false

/-- Unary minus of the host. -/
def neg : JSNum → JSNum
  | nan => nan
  | inf s => inf (!s)
  | fin q => fin (-q)

/-- Addition of the host: NaN absorbs, opposite infinities give NaN. -/
def add : JSNum → JSNum → JSNum
  | nan, _ => nan
  | _, nan => nan
  | inf s, inf t => if s = t then inf s else nan
  | inf s, fin _ => inf s
  | fin _, inf t => inf t
  | fin a, fin b => fin (a + b)

/-- Subtraction of the host: NaN absorbs, equal infinities give NaN. -/
def sub : JSNum → JSNum → JSNum
  | nan, _ => nan
  | _, nan => nan
  | inf s, inf t => if s = t then nan else inf s
  | inf s, fin _ => inf s
  | fin _, inf t => inf (!t)
  | fin a, fin b => fin (a - b)

/-- Multiplication of the host: NaN absorbs, infinity times zero is NaN,
signs combine. -/
def mul : JSNum → JSNum → JSNum
  | nan, _ => nan
  | _, nan => nan
  | inf s, inf t => inf (s = t)
  | inf s, fin b => if b = 0 then nan else if 0 < b then inf s else inf (!s)
  | fin a, inf t => if a = 0 then nan else if 0 < a then inf t else inf (!t)
  | fin a, fin b => fin (a * b)

/-- Division of the host: NaN absorbs, Infinity/Infinity is NaN,
finite/Infinity is 0, finite/0 is a signed infinity (0/0 is NaN). -/
def divN : JSNum → JSNum → JSNum
  | nan, _ => nan
  | _, nan => nan
  | inf _, inf _ => nan
  | inf s, fin b => if 0 ≤ b then inf s else inf (!s)
  | fin _, inf _ => fin 0
  | fin a, fin b =>
      if b = 0 then (if a = 0 then nan else if 0 < a then inf true else inf false)
      else fin (a / b)

/-- The host `Math.abs`. -/
def absN : JSNum → JSNum
  | nan => nan
  | inf _ => inf true
  | fin q => fin |q|

/-- The host strict `<` comparison: any comparison with NaN is false. -/
def ltN : JSNum → JSNum → Bool
  | nan, _ => false
  | _, nan => false
  | inf s, inf t => !s && t
  | inf s, fin _ => !s
  | fin _, inf t => t
  | fin a, fin b => decide (a < b)

/-- The host `<=` comparison: any comparison with NaN is false. -/
def leN : JSNum → JSNum → Bool
  | nan, _ => false
  | _, nan => false
  | inf s, inf t => !(s && !t)
  | inf s, fin _ => !s
  | fin _, inf t => t
  | fin a, fin b => decide (a ≤ b)

/-- The host `Math.ceil`, exact on finite values. -/
def ceilN : JSNum → JSNum
  | nan => nan
  | inf s => inf s
  | fin q => fin ⌈q⌉

/-- The host `Math.floor`, exact on finite values. -/
def floorN : JSNum → JSNum
  | nan => nan
  | inf s => inf s
  | fin q => fin ⌊q⌋

/-- The host `Math.round` (round half toward +Infinity), exact on finite
values. -/
def roundN : JSNum → JSNum
  | nan => nan
  | inf s => inf s
  | fin q => fin ⌊q + 1 / 2⌋

end JSNum

/-- A Complex.js value: the pair of fields `re` and `im` stored by the
constructor.  (The library name `Complex` is taken by Mathlib.) -/
structure Cpx where
  re : JSNum
  im : JSNum
deriving DecidableEq

namespace Cpx

/-- `Complex.EPSILON = 1e-15` (line 1477). -/
def EPSILON : ℚ := 1 / 10 ^ 15

/-- `Complex['ZERO'] = new Complex(0, 0)`. -/
def ZERO : Cpx := ⟨JSNum.fin 0, JSNum.fin 0⟩

/-- `Complex['ONE'] = new Complex(1, 0)`. -/
def ONE : Cpx := ⟨JSNum.fin 1, JSNum.fin 0⟩

/-- `Complex['INFINITY'] = new Complex(Infinity, Infinity)`. -/
def INFINITY : Cpx := ⟨JSNum.inf true, JSNum.inf true⟩

/-- `Complex['NAN'] = new Complex(NaN, NaN)`. -/
def NAN : Cpx := ⟨JSNum.nan, JSNum.nan⟩

/-- `isNaN(): return isNaN(this.re) || isNaN(this.im)` (line 1436). -/
def isNaN (z : Cpx) : Bool := z.re.isNaNN || z.im.isNaNN

/-- `isZero(): return this.im === 0 && this.re === 0` (line 1446). -/
def isZero (z : Cpx) : Bool :=
  decide (z.im = JSNum.fin 0) && decide (z.re = JSNum.fin 0)

/-- `isFinite(): return isFinite(this.re) && isFinite(this.im)` (line 1456). -/
def isFinite (z : Cpx) : Bool := z.re.isFiniteN && z.im.isFiniteN

/-- `isInfinite(): return !this.isFinite()` (line 1466). -/
def isInfinite (z : Cpx) : Bool := !z.isFinite

/-- The inline test `x.re === 0 && x.im === 0` used by `mul`, `div`, `pow`
(lines 356-357, 390-391, 442-443). -/
def zeroB (x : Cpx) : Bool :=
  decide (x.re = JSNum.fin 0) && decide (x.im = JSNum.fin 0)

/-- The inline operand test `!(isFinite(z.re) && isFinite(z.im))` used by
`add`, `sub`, `mul`, `div` (lines 301, 328, 355, 389). -/
def infinB (z : Cpx) : Bool := !(z.re.isFiniteN && z.im.isFiniteN)

/-- `add` (lines 296-316), on the parsed operand. -/
def add (t z : Cpx) : Cpx :=
  let tInfin := t.isInfinite
  let zInfin := infinB z
  if tInfin || zInfin then
    if tInfin && zInfin then NAN else INFINITY
  else
    ⟨t.re.add z.re, t.im.add z.im⟩

/-- `sub` (lines 323-343), on the parsed operand. -/
def sub (t z : Cpx) : Cpx :=
  let tInfin := t.isInfinite
  let zInfin := infinB z
  if tInfin || zInfin then
    if tInfin && zInfin then NAN else INFINITY
  else
    ⟨t.re.sub z.re, t.im.sub z.im⟩

/-- `mul` (lines 350-377), on the parsed operand. -/
def mul (t z : Cpx) : Cpx :=
  let tInfin := t.isInfinite
  let zInfin := infinB z
  let tIsZero := zeroB t
  let zIsZero := zeroB z
  if (tInfin && zIsZero) || (zInfin && tIsZero) then NAN
  else if tInfin || zInfin then INFINITY
  else if decide (z.im = JSNum.fin 0) && decide (t.im = JSNum.fin 0) then
    ⟨t.re.mul z.re, JSNum.fin 0⟩
  else
    ⟨(t.re.mul z.re).sub (t.im.mul z.im), (t.re.mul z.im).add (t.im.mul z.re)⟩

/-- `div` (lines 384-431), on the parsed operand; the last two branches are
Smith's algorithm. -/
def div (t z : Cpx) : Cpx :=
  let tInfin := t.isInfinite
  let zInfin := infinB z
  let tIsZero := zeroB t
  let zIsZero := zeroB z
  if (tIsZero && zIsZero) || (tInfin && zInfin) then NAN
  else if zIsZero || tInfin then INFINITY
  else if tIsZero || zInfin then ZERO
  else if decide (z.im = JSNum.fin 0) then
    ⟨t.re.divN z.re, t.im.divN z.re⟩
  else if (z.re.absN).ltN (z.im.absN) then
    let x := z.re.divN z.im
    let t2 := (z.re.mul x).add z.im
    ⟨((t.re.mul x).add t.im).divN t2, ((t.im.mul x).sub t.re).divN t2⟩
  else
    let x := z.im.divN z.re
    let t2 := (z.im.mul x).add z.re
    ⟨(t.re.add (t.im.mul x)).divN t2, ((t.im.sub (t.re.mul x))).divN t2⟩

/-- `equals` (lines 1336-1342), on the parsed operand `z`:
`Math.abs(z.re - this.re) <= Complex.EPSILON && Math.abs(z.im - this.im) <= Complex.EPSILON`. -/
def equals (t z : Cpx) : Bool :=
  ((z.re.sub t.re).absN).leN (JSNum.fin EPSILON) &&
    ((z.im.sub t.im).absN).leN (JSNum.fin EPSILON)

end Cpx

/-- An interpretation of the transcendental primitives of the host
(`Math.exp`, `Math.log`, `Math.cos`, `Math.sin`, `Math.atan2`, `Math.pow`,
`Math.LN2`, `Math.sqrt`, `Math.expm1`, `Math.acos`, `Math.cosh`,
`Math.sinh` — the module-level `cosh`/`sinh` bindings resolve to the host
functions on any host that provides them — and the constant `Math.PI`).
These are not code of this repository, so the definitions that call them are
parameterised by such an interpretation and the structural theorems hold for
every interpretation. -/
structure TOps where
  expF : JSNum → JSNum
  logF : JSNum → JSNum
  cosF : JSNum → JSNum
  sinF : JSNum → JSNum
  atan2F : JSNum → JSNum → JSNum
  powF : JSNum → JSNum → JSNum
  ln2 : JSNum
  sqrtF : JSNum → JSNum
  expm1F : JSNum → JSNum
  acosF : JSNum → JSNum
  coshF : JSNum → JSNum
  sinhF : JSNum → JSNum
  piC : JSNum

/-- An arbitrary interpretation of the primitives, used only to instantiate
witnesses whose conclusions do not depend on the primitives. -/
def ops0 : TOps :=
  ⟨fun _ => JSNum.nan, fun _ => JSNum.nan, fun _ => JSNum.nan,
   fun _ => JSNum.nan, fun _ _ => JSNum.nan, fun _ _ => JSNum.nan, JSNum.nan,
   fun _ => JSNum.nan, fun _ => JSNum.nan, fun _ => JSNum.nan,
   fun _ => JSNum.nan, fun _ => JSNum.nan, JSNum.nan⟩

/-- Split a character list into its leading run of decimal digits and the
rest (the greedy match of a leading regex block of digits). -/
def takeDigits (cs : List Char) : List Char × List Char :=
  (cs.takeWhile Char.isDigit, cs.dropWhile Char.isDigit)

/-- The tokenizer of `parse`'s string case (line 185):
global matching of the regex alternatives
digits-dot-digits-exponent, digits-dot-digits, dot-digits, any character.
The alternatives are attempted in order at each position and each is matched
greedily; the character classes involved are disjoint, so no backtracking can
produce a different match.  A newline is matched by no alternative (the dot
class excludes it) and is skipped.  The fuel argument strictly exceeds the
list length at every call, so it never runs out. -/
def tokenizeF : Nat → List Char → List String
  | 0, _ => []
  | _, [] => []
  | fuel + 1, c :: rest =>
    if c.isDigit then
      let (d1, r1) := takeDigits (c :: rest)
      let (dot, r2) := match r1 with
        | '.' :: r => ([('.' : Char)], r)
        | _ => (([] : List Char), r1)
      let (d2, r3) := takeDigits r2
      match r3 with
      | 'e' :: r4 =>
        let (sg, r5) := match r4 with
          | '+' :: r => ([('+' : Char)], r)
          | '-' :: r => ([('-' : Char)], r)
          | _ => (([] : List Char), r4)
        let (d3, r6) := takeDigits r5
        if d3.isEmpty then String.mk (d1 ++ dot ++ d2) :: tokenizeF fuel r3
        else String.mk (d1 ++ dot ++ d2 ++ 'e' :: (sg ++ d3)) :: tokenizeF fuel r6
      | _ => String.mk (d1 ++ dot ++ d2) :: tokenizeF fuel r3
    else if c = '\n' then tokenizeF fuel rest
    else if c = '.' then
      match rest with
      | d :: _ =>
        if d.isDigit then
          let (ds, r2) := takeDigits rest
          String.mk ('.' :: ds) :: tokenizeF fuel r2
        else String.mk [c] :: tokenizeF fuel rest
      | [] => [String.mk [c]]
    else String.mk [c] :: tokenizeF fuel rest

/-- Tokenize a character list (the fuel strictly exceeds the length). -/
def tokenizeL (cs : List Char) : List String := tokenizeF (cs.length + 1) cs

/-- Numeric value of a run of decimal digit characters. -/
def digitsVal (ds : List Char) : ℕ :=
  ds.foldl (fun acc c => acc * 10 + (c.toNat - 48)) 0

/-- Value of a complete decimal numeric literal
(digits, optional fraction, optional exponent), or `none` if the character
list is not exactly such a literal. -/
def numValQ (cs : List Char) : Option ℚ :=
  let (ip, r1) := takeDigits cs
  let (hasDot, r2) := match r1 with
    | '.' :: r => (true, r)
    | _ => (false, r1)
  let (fp, r3) := takeDigits r2
  if ip.isEmpty && (!hasDot || fp.isEmpty) then none
  else
    let mant : ℚ := (digitsVal ip : ℚ) + (digitsVal fp : ℚ) / (10 : ℚ) ^ fp.length
    match r3 with
    | [] => some mant
    | 'e' :: r4 =>
      let (esign, r5) := match r4 with
        | '+' :: r => ((1 : ℤ), r)
        | '-' :: r => ((-1 : ℤ), r)
        | _ => ((1 : ℤ), r4)
      let (ed, r6) := takeDigits r5
      if ed.isEmpty || !r6.isEmpty then none
      else some (mant * (10 : ℚ) ^ (esign * (digitsVal ed : ℤ)))
    | _ => none

/-- Whitespace characters relevant to the token universe. -/
def isWsp (c : Char) : Bool := c = ' ' || c = '\t' || c = '\n'

/-- The host ToNumber coercion on strings, on the decimal grammar relevant to
the tokens of `tokenizeL`: surrounding whitespace is trimmed, the empty
string is 0, an optional sign precedes an `Infinity` literal or a decimal
literal, and anything else is NaN. -/
def jsNumberOfString (s : String) : JSNum :=
  let t := ((s.data.dropWhile isWsp).reverse.dropWhile isWsp).reverse
  if t.isEmpty then JSNum.fin 0
  else
    let (isNeg, t2) := match t with
      | '+' :: r => (false, r)
      | '-' :: r => (true, r)
      | _ => (false, t)
    if t2 = ['I', 'n', 'f', 'i', 'n', 'i', 't', 'y'] then JSNum.inf (!isNeg)
    else match numValQ t2 with
      | some q => JSNum.fin (if isNeg then -q else q)
      | none => JSNum.nan

/-- The host `isNaN` applied to a string (coerce, then test). -/
def jsIsNaNStr (s : String) : Bool := (jsNumberOfString s).isNaNN

/-- `parseFloat((minus % 2 ? '-' : '') + tok)` (lines 210, 224, 227) on the
token universe: a token that is a complete numeric literal parses to its
(possibly negated) value; any other token that can reach this call (for
example a whitespace token seen through the lookahead) gives NaN. -/
def parseFloatSigned (minus : Nat) (tok : String) : JSNum :=
  match numValQ tok.data with
  | some q => JSNum.fin (if minus % 2 = 1 then -q else q)
  | none => JSNum.nan

/-- The token-accumulation loop of `parse`'s string case (lines 186-236),
with the running real and imaginary accumulators and the pending plus/minus
counts.  An out-of-range lookahead (`tokens[i+1]` undefined) is the nil case:
`undefined !== ' '` holds and `isNaN(undefined)` is true, so the `±1` branch
or the real-accumulator branch is taken and the loop then ends with the sign
counts reset, making the trailing sign check pass; those tail cases are
returned directly. -/
def runTok : Nat → List String → JSNum → JSNum → Nat → Nat → Except Unit (JSNum × JSNum)
  | 0, _, re, im, _, _ =>
      -- unreachable: every iteration consumes at least one token and the
      -- initial fuel strictly exceeds the token count
      .ok (re, im)
  | _, [], re, im, plus, minus =>
      if plus + minus > 0 then .error () else .ok (re, im)
  | fuel + 1, c :: rest, re, im, plus, minus =>
      if c = " " || c = "\t" || c = "\n" then runTok fuel rest re im plus minus
      else if c = "+" then runTok fuel rest re im (plus + 1) minus
      else if c = "-" then runTok fuel rest re im plus (minus + 1)
      else if c = "i" || c = "I" then
        if plus + minus = 0 then .error ()
        else
          match rest with
          | next :: rest2 =>
            if next ≠ " " ∧ jsIsNaNStr next = false then
              runTok fuel rest2 re (im.add (parseFloatSigned minus next)) 0 0
            else
              runTok fuel (next :: rest2) re
                (im.add (JSNum.fin (if minus % 2 = 1 then -1 else 1))) 0 0
          | [] => .ok (re, im.add (JSNum.fin (if minus % 2 = 1 then -1 else 1)))
      else
        if plus + minus = 0 ∨ jsIsNaNStr c = true then .error ()
        else
          match rest with
          | next :: rest2 =>
            if next = "i" ∨ next = "I" then
              runTok fuel rest2 re (im.add (parseFloatSigned minus c)) 0 0
            else
              runTok fuel (next :: rest2) (re.add (parseFloatSigned minus c)) im 0 0
          | [] => .ok (re.add (parseFloatSigned minus c), im)

/-- `parse`'s string case (lines 179-237): strip underscores, tokenize
(`match` returns null exactly when there is no token), then run the
accumulation loop with an initial implicit plus (`let plus = 1`). -/
def parseStr (s : String) : Except Unit (JSNum × JSNum) :=
  let cs := s.data.filter (fun c => c ≠ '_')
  let toks := tokenizeL cs
  if toks.isEmpty then .error ()
  else runTok (toks.length + 1) toks (JSNum.fin 0) (JSNum.fin 0) 1 0

/-- The universe of raw arguments `parse` dispatches on: absent (`undefined`)
or `null`, a number, a string, a record with an `re`/`im`, `abs`/`arg` or
`r`/`phi` key pair, an ordered sequence, a record with none of the
recognized key pairs and no two-element length, or a value of non-numeric
primitive type (`typeof` hitting the `default` arm, e.g. a boolean). -/
inductive JSVal where
  | undef : JSVal
  | jsnull : JSVal
  | num : JSNum → JSVal
  | str : String → JSVal
  | bool : Bool → JSVal
  | objReIm : JSNum → JSNum → JSVal
  | objAbsArg : JSNum → JSNum → JSVal
  | objRPhi : JSNum → JSNum → JSVal
  | arr : List JSNum → JSVal
  | objOther : JSVal
deriving DecidableEq

/-- `parse` (lines 141-254).  `a === undefined || a === null` is tested
first, so a null/absent first argument yields `(0, 0)` even when `b` is
present; next `b !== undefined` stores both arguments verbatim with no
coercion; otherwise dispatch on the type of `a`.  The concluding
`isNaN(z.re) || isNaN(z.im)` check deliberately does not throw (lines
248-251), so a NaN outcome is returned as a value.  Errors (`parser_exit`,
line 74) are modelled as `Except.error`, raised before any result pair is
produced. -/
def parse (ops : TOps) (a : JSVal) (b : Option JSVal) : Except Unit (JSVal × JSVal) :=
  match a, b with
  | JSVal.undef, _ => .ok (JSVal.num (JSNum.fin 0), JSVal.num (JSNum.fin 0))
  | JSVal.jsnull, _ => .ok (JSVal.num (JSNum.fin 0), JSVal.num (JSNum.fin 0))
  | _, some bv => .ok (a, bv)
  | JSVal.num x, none => .ok (JSVal.num x, JSVal.num (JSNum.fin 0))
  | JSVal.str s, none =>
      match parseStr s with
      | .ok (r, i) => .ok (JSVal.num r, JSVal.num i)
      | .error e => .error e
  | JSVal.objReIm r i, none => .ok (JSVal.num r, JSVal.num i)
  | JSVal.objAbsArg ab ar, none =>
      if !ab.isFiniteN && ar.isFiniteN then
        .ok (JSVal.num (JSNum.inf true), JSVal.num (JSNum.inf true))
      else
        .ok (JSVal.num (ab.mul (ops.cosF ar)), JSVal.num (ab.mul (ops.sinF ar)))
  | JSVal.objRPhi r phi, none =>
      if !r.isFiniteN && phi.isFiniteN then
        .ok (JSVal.num (JSNum.inf true), JSVal.num (JSNum.inf true))
      else
        .ok (JSVal.num (r.mul (ops.cosF phi)), JSVal.num (r.mul (ops.sinF phi)))
  | JSVal.arr l, none =>
      match l with
      | [x, y] => .ok (JSVal.num x, JSVal.num y)
      | _ => .error ()
  | JSVal.objOther, none => .error ()
  | JSVal.bool _, none => .error ()

namespace Cpx

/-- `logHypot` (lines 85-138): `log(sqrt(a^2+b^2))`, with the direct formula
below the magnitude threshold 3000 and operand halving plus `Math.LN2` above
it. -/
def logHypot (ops : TOps) (a b : JSNum) : JSNum :=
  let aAbs := a.absN
  let bAbs := b.absN
  if decide (a = JSNum.fin 0) then ops.logF bAbs
  else if decide (b = JSNum.fin 0) then ops.logF aAbs
  else if aAbs.ltN (JSNum.fin 3000) && bAbs.ltN (JSNum.fin 3000) then
    (ops.logF ((a.mul a).add (b.mul b))).mul (JSNum.fin (1 / 2))
  else
    let a2 := a.mul (JSNum.fin (1 / 2))
    let b2 := b.mul (JSNum.fin (1 / 2))
    ((JSNum.fin (1 / 2)).mul (ops.logF ((a2.mul a2).add (b2.mul b2)))).add ops.ln2

/-- `hypot` (lines 58-72): `sqrt(x^2+y^2)` with the larger magnitude first,
the direct Pythagorean formula below the threshold 1e8, and scaling by the
larger magnitude above it. -/
def hypotV (ops : TOps) (x0 y0 : JSNum) : JSNum :=
  let x1 := x0.absN
  let y1 := y0.absN
  let p := if x1.ltN y1 then (y1, x1) else (x1, y1)
  let x := p.1
  let y := p.2
  if x.ltN (JSNum.fin 100000000) then ops.sqrtF ((x.mul x).add (y.mul y))
  else
    let y2 := y.divN x
    x.mul (ops.sqrtF ((JSNum.fin 1).add (y2.mul y2)))

/-- `cosm1` (lines 52-56): `cos(x) - 1` computed as `-2 sin(x/2)^2`. -/
def cosm1V (ops : TOps) (x : JSNum) : JSNum :=
  let s := ops.sinF ((JSNum.fin (1 / 2)).mul x)
  ((JSNum.fin (-2)).mul s).mul s

/-- The switch scrutinee `(z.re % 4 + 4) % 4` of `pow` (line 458): an
integral value selects one of the cases 0-3 (the host `%` truncates toward
zero, and adding 4 then reducing again canonicalizes the sign); a
fractional, infinite or NaN value matches no case and the switch falls
through. -/
def jsMod4 : JSNum → Option ℕ
  | JSNum.fin q => if q.den = 1 then some (((q.num % 4 + 4) % 4).toNat) else none
  | _ => none

/-- `pow` (lines 438-502), on the parsed operand: zero exponent gives ONE
first of all; then the real-exponent shortcuts (positive real base, purely
imaginary base with integral exponent), the zero-base rule, and the general
`exp(w log z)` formula. -/
def pow (ops : TOps) (t z : Cpx) : Cpx :=
  let tIsZero := zeroB t
  let zIsZero := zeroB z
  if zIsZero then ONE
  else if decide (z.im = JSNum.fin 0) && decide (t.im = JSNum.fin 0) &&
      (JSNum.fin 0).ltN t.re then
    ⟨ops.powF t.re z.re, JSNum.fin 0⟩
  else
    match (if decide (z.im = JSNum.fin 0) && decide (t.re = JSNum.fin 0)
           then jsMod4 z.re else none : Option ℕ) with
    | some 0 => ⟨ops.powF t.im z.re, JSNum.fin 0⟩
    | some 1 => ⟨JSNum.fin 0, ops.powF t.im z.re⟩
    | some 2 => ⟨(ops.powF t.im z.re).neg, JSNum.fin 0⟩
    | some 3 => ⟨JSNum.fin 0, (ops.powF t.im z.re).neg⟩
    | _ =>
      if tIsZero && (JSNum.fin 0).ltN z.re then ZERO
      else
        let arg := ops.atan2F t.im t.re
        let loh := logHypot ops t.re t.im
        let re2 := ops.expF ((z.re.mul loh).sub (z.im.mul arg))
        let im2 := (z.im.mul loh).add (z.re.mul arg)
        ⟨re2.mul (ops.cosF im2), re2.mul (ops.sinF im2)⟩

/-- `log` (lines 581-593). -/
def log (ops : TOps) (z : Cpx) : Cpx :=
  if decide (z.im = JSNum.fin 0) && (JSNum.fin 0).ltN z.re then
    ⟨ops.logF z.re, JSNum.fin 0⟩
  else
    ⟨logHypot ops z.re z.im, ops.atan2F z.im z.re⟩

/-- `atan` (lines 777-802). -/
def atan (ops : TOps) (z : Cpx) : Cpx :=
  let a := z.re
  let b := z.im
  if decide (a = JSNum.fin 0) && decide (b = JSNum.fin 1) then
    ⟨JSNum.fin 0, JSNum.inf true⟩
  else if decide (a = JSNum.fin 0) && decide (b = JSNum.fin (-1)) then
    ⟨JSNum.fin 0, JSNum.inf false⟩
  else
    let d := (a.mul a).add (((JSNum.fin 1).sub b).mul ((JSNum.fin 1).sub b))
    let t1 := log ops
      ⟨(((JSNum.fin 1).sub (b.mul b)).sub (a.mul a)).divN d,
       ((JSNum.fin (-2)).mul a).divN d⟩
    ⟨(JSNum.fin (-(1 / 2))).mul t1.im, (JSNum.fin (1 / 2)).mul t1.re⟩

/-- `acot` (lines 809-828): a real-axis input takes the `atan2(1, a)` branch;
otherwise `atan` of the reciprocal, with the `d === 0` fallback. -/
def acot (ops : TOps) (z : Cpx) : Cpx :=
  let a := z.re
  let b := z.im
  if decide (b = JSNum.fin 0) then ⟨ops.atan2F (JSNum.fin 1) a, JSNum.fin 0⟩
  else
    let d := (a.mul a).add (b.mul b)
    if decide (d ≠ JSNum.fin 0) then
      atan ops ⟨a.divN d, (b.neg).divN d⟩
    else
      atan ops
        ⟨(if decide (a ≠ JSNum.fin 0) then a.divN (JSNum.fin 0) else JSNum.fin 0),
         (if decide (b ≠ JSNum.fin 0) then (b.neg).divN (JSNum.fin 0) else JSNum.fin 0)⟩

/-- `String(x)` of the host on a number: fixed renderings for NaN and the
infinities, and a rendering parameter for finite values (the host's
shortest-round-trip decimal rendering is not reproduced; every claim under
study is independent of it). -/
def renderJS (render : ℚ → String) : JSNum → String
  | JSNum.nan => "NaN"
  | JSNum.inf true => "Infinity"
  | JSNum.inf false => "-Infinity"
  | JSNum.fin q => render q

/-- `toString` (lines 1359-1405), parameterised by the host's finite-number
rendering: NaN and infinite values short-circuit; components within EPSILON
of zero are snapped to 0; a zero (snapped) imaginary part renders the real
part alone; otherwise the real part is rendered only if nonzero, followed by
a sign token, the imaginary magnitude is negated into the sign, and a
magnitude of exactly 1 is omitted before the trailing "i". -/
def toString (render : ℚ → String) (z : Cpx) : String :=
  let a0 := z.re
  let b0 := z.im
  if z.isNaN then "NaN"
  else if z.isInfinite then "Infinity"
  else
    let a := if (a0.absN).ltN (JSNum.fin EPSILON) then JSNum.fin 0 else a0
    let b := if (b0.absN).ltN (JSNum.fin EPSILON) then JSNum.fin 0 else b0
    if decide (b = JSNum.fin 0) then renderJS render a
    else
      let ret :=
        if decide (a ≠ JSNum.fin 0) then
          renderJS render a ++ " " ++ (if b.ltN (JSNum.fin 0) then "-" else "+") ++ " "
        else
          (if b.ltN (JSNum.fin 0) then "-" else "")
      let b2 := if b.ltN (JSNum.fin 0) then b.neg else b
      (if decide (b2 ≠ JSNum.fin 1) then ret ++ renderJS render b2 else ret) ++ "i"

end Cpx

/-- The mathematical value of the host primitive `Math.atan2(y, x)` on the
reals (the primitive is not code of this repository): the principal angle of
the point `(x, y)`, in `(-π, π]`. -/
noncomputable def atan2R (y x : ℝ) : ℝ :=
  if 0 < x then Real.arctan (y / x)
  else if x < 0 then
    (if 0 ≤ y then Real.arctan (y / x) + Real.pi else Real.arctan (y / x) - Real.pi)
  else
    (if 0 < y then Real.pi / 2 else if y < 0 then -(Real.pi / 2) else 0)

/-- A Complex instance together with an allocation identifier: states which
operations return a freshly constructed object (`new Complex(...)`) and
which return a pre-allocated singleton constant. -/
structure ObjC where
  oid : ℕ
  val : Cpx
deriving DecidableEq

/-- The ZERO singleton object (line 1470). -/
def oZERO : ObjC := ⟨0, Cpx.ZERO⟩

/-- The ONE singleton object (line 1471). -/
def oONE : ObjC := ⟨1, Cpx.ONE⟩

/-- The INFINITY singleton object (line 1475). -/
def oINFINITY : ObjC := ⟨2, Cpx.INFINITY⟩

/-- The NAN singleton object (line 1476). -/
def oNAN : ObjC := ⟨3, Cpx.NAN⟩

/-- `new Complex(re, im)` in the allocation model: a fresh object carrying
the next identifier, and the advanced allocation counter. -/
def newC (σ : ℕ) (v : Cpx) : ObjC × ℕ := (⟨σ, v⟩, σ + 1)

/-- `div` in the allocation model, with `σ` the next fresh identifier: the
pole branches return the pre-existing singletons (`return Complex['NAN']`
etc., lines 395, 400, 405) leaving `σ` unchanged, and every other branch
constructs a new object. -/
def divA (σ : ℕ) (t z : ObjC) : ObjC × ℕ :=
  if (Cpx.zeroB t.val && Cpx.zeroB z.val) ||
      (Cpx.isInfinite t.val && Cpx.infinB z.val) then (oNAN, σ)
  else if Cpx.zeroB z.val || Cpx.isInfinite t.val then (oINFINITY, σ)
  else if Cpx.zeroB t.val || Cpx.infinB z.val then (oZERO, σ)
  else (⟨σ, Cpx.div t.val z.val⟩, σ + 1)

/-- `add` in the allocation model (singleton returns at lines 307, 310). -/
def addA (σ : ℕ) (t z : ObjC) : ObjC × ℕ :=
  if Cpx.isInfinite t.val || Cpx.infinB z.val then
    (if Cpx.isInfinite t.val && Cpx.infinB z.val then (oNAN, σ) else (oINFINITY, σ))
  else (⟨σ, Cpx.add t.val z.val⟩, σ + 1)

/-- `sub` in the allocation model (singleton returns at lines 334, 337). -/
def subA (σ : ℕ) (t z : ObjC) : ObjC × ℕ :=
  if Cpx.isInfinite t.val || Cpx.infinB z.val then
    (if Cpx.isInfinite t.val && Cpx.infinB z.val then (oNAN, σ) else (oINFINITY, σ))
  else (⟨σ, Cpx.sub t.val z.val⟩, σ + 1)

/-- `mul` in the allocation model (singleton returns at lines 361, 366). -/
def mulA (σ : ℕ) (t z : ObjC) : ObjC × ℕ :=
  if (Cpx.isInfinite t.val && Cpx.zeroB z.val) ||
      (Cpx.infinB z.val && Cpx.zeroB t.val) then (oNAN, σ)
  else if Cpx.isInfinite t.val || Cpx.infinB z.val then (oINFINITY, σ)
  else (⟨σ, Cpx.mul t.val z.val⟩, σ + 1)

/-- `neg` in the allocation model: always constructs a new object
(line 1284). -/
def negA (σ : ℕ) (t : ObjC) : ObjC × ℕ :=
  (⟨σ, ⟨t.val.re.neg, t.val.im.neg⟩⟩, σ + 1)

/-- `conjugate` in the allocation model: always constructs a new object
(line 1274). -/
def conjugateA (σ : ℕ) (t : ObjC) : ObjC × ℕ :=
  (⟨σ, ⟨t.val.re, t.val.im.neg⟩⟩, σ + 1)

/-- `pow` in the allocation model (lines 438-502): the zero-exponent branch
returns the ONE singleton (`return Complex['ONE']`, line 446) and the
zero-base branch the ZERO singleton (line 491); every other branch
constructs a new object. -/
def powA (ops : TOps) (σ : ℕ) (t z : ObjC) : ObjC × ℕ :=
  let tv := t.val
  let zv := z.val
  if Cpx.zeroB zv then (oONE, σ)
  else if decide (zv.im = JSNum.fin 0) && decide (tv.im = JSNum.fin 0) &&
      (JSNum.fin 0).ltN tv.re then
    newC σ ⟨ops.powF tv.re zv.re, JSNum.fin 0⟩
  else
    match (if decide (zv.im = JSNum.fin 0) && decide (tv.re = JSNum.fin 0)
           then Cpx.jsMod4 zv.re else none : Option ℕ) with
    | some 0 => newC σ ⟨ops.powF tv.im zv.re, JSNum.fin 0⟩
    | some 1 => newC σ ⟨JSNum.fin 0, ops.powF tv.im zv.re⟩
    | some 2 => newC σ ⟨(ops.powF tv.im zv.re).neg, JSNum.fin 0⟩
    | some 3 => newC σ ⟨JSNum.fin 0, (ops.powF tv.im zv.re).neg⟩
    | _ =>
      if Cpx.zeroB tv && (JSNum.fin 0).ltN zv.re then (oZERO, σ)
      else
        let arg := ops.atan2F tv.im tv.re
        let loh := Cpx.logHypot ops tv.re tv.im
        let re2 := ops.expF ((zv.re.mul loh).sub (zv.im.mul arg))
        let im2 := (zv.im.mul loh).add (zv.re.mul arg)
        newC σ ⟨re2.mul (ops.cosF im2), re2.mul (ops.sinF im2)⟩

/-- `sign` in the allocation model (lines 282-289): always fresh. -/
def signA (ops : TOps) (σ : ℕ) (t : ObjC) : ObjC × ℕ :=
  let abs := Cpx.hypotV ops t.val.re t.val.im
  newC σ ⟨t.val.re.divN abs, t.val.im.divN abs⟩

/-- `sqrt` in the allocation model (lines 509-533): every branch constructs
a new object. -/
def sqrtA (ops : TOps) (σ : ℕ) (t : ObjC) : ObjC × ℕ :=
  let a := t.val.re
  let b := t.val.im
  if decide (b = JSNum.fin 0) then
    if (JSNum.fin 0).leN a then newC σ ⟨ops.sqrtF a, JSNum.fin 0⟩
    else newC σ ⟨JSNum.fin 0, ops.sqrtF a.neg⟩
  else
    let r := Cpx.hypotV ops a b
    let re := ops.sqrtF ((JSNum.fin (1 / 2)).mul (r.add a.absN))
    let im := (b.absN).divN ((JSNum.fin 2).mul re)
    if (JSNum.fin 0).leN a then
      newC σ ⟨re, if b.ltN (JSNum.fin 0) then im.neg else im⟩
    else
      newC σ ⟨im, if b.ltN (JSNum.fin 0) then re.neg else re⟩

/-- `exp` in the allocation model (lines 540-550): always fresh. -/
def expA (ops : TOps) (σ : ℕ) (t : ObjC) : ObjC × ℕ :=
  let er := ops.expF t.val.re
  if decide (t.val.im = JSNum.fin 0) then newC σ ⟨er, JSNum.fin 0⟩
  else newC σ ⟨er.mul (ops.cosF t.val.im), er.mul (ops.sinF t.val.im)⟩

/-- `expm1` in the allocation model (lines 560-574): always fresh. -/
def expm1A (ops : TOps) (σ : ℕ) (t : ObjC) : ObjC × ℕ :=
  let a := t.val.re
  let b := t.val.im
  newC σ ⟨((ops.expm1F a).mul (ops.cosF b)).add (Cpx.cosm1V ops b),
          (ops.expF a).mul (ops.sinF b)⟩

/-- `log` in the allocation model (lines 581-593): one fresh object carrying
the value computed by `Cpx.log` (both source branches end in a single
`new Complex`). -/
def logA (ops : TOps) (σ : ℕ) (t : ObjC) : ObjC × ℕ :=
  newC σ (Cpx.log ops t.val)

/-- `sin` in the allocation model (lines 620-631): always fresh. -/
def sinA (ops : TOps) (σ : ℕ) (t : ObjC) : ObjC × ℕ :=
  newC σ ⟨(ops.sinF t.val.re).mul (ops.coshF t.val.im),
          (ops.cosF t.val.re).mul (ops.sinhF t.val.im)⟩

/-- `cos` in the allocation model (lines 638-649): always fresh. -/
def cosA (ops : TOps) (σ : ℕ) (t : ObjC) : ObjC × ℕ :=
  newC σ ⟨(ops.cosF t.val.re).mul (ops.coshF t.val.im),
          ((ops.sinF t.val.re).neg).mul (ops.sinhF t.val.im)⟩

/-- `tan` in the allocation model (lines 656-670): always fresh. -/
def tanA (ops : TOps) (σ : ℕ) (t : ObjC) : ObjC × ℕ :=
  let a := (JSNum.fin 2).mul t.val.re
  let b := (JSNum.fin 2).mul t.val.im
  let d := (ops.cosF a).add (ops.coshF b)
  newC σ ⟨(ops.sinF a).divN d, (ops.sinhF b).divN d⟩

/-- `cot` in the allocation model (lines 677-688): always fresh. -/
def cotA (ops : TOps) (σ : ℕ) (t : ObjC) : ObjC × ℕ :=
  let a := (JSNum.fin 2).mul t.val.re
  let b := (JSNum.fin 2).mul t.val.im
  let d := (ops.cosF a).sub (ops.coshF b)
  newC σ ⟨((ops.sinF a).neg).divN d, (ops.sinhF b).divN d⟩

/-- `sec` in the allocation model (lines 695-706): always fresh. -/
def secA (ops : TOps) (σ : ℕ) (t : ObjC) : ObjC × ℕ :=
  let a := t.val.re
  let b := t.val.im
  let d := ((JSNum.fin (1 / 2)).mul (ops.coshF ((JSNum.fin 2).mul b))).add
    ((JSNum.fin (1 / 2)).mul (ops.cosF ((JSNum.fin 2).mul a)))
  newC σ ⟨((ops.cosF a).mul (ops.coshF b)).divN d,
          ((ops.sinF a).mul (ops.sinhF b)).divN d⟩

/-- `csc` in the allocation model (lines 713-724): always fresh. -/
def cscA (ops : TOps) (σ : ℕ) (t : ObjC) : ObjC × ℕ :=
  let a := t.val.re
  let b := t.val.im
  let d := ((JSNum.fin (1 / 2)).mul (ops.coshF ((JSNum.fin 2).mul b))).sub
    ((JSNum.fin (1 / 2)).mul (ops.cosF ((JSNum.fin 2).mul a)))
  newC σ ⟨((ops.sinF a).mul (ops.coshF b)).divN d,
          (((ops.cosF a).neg).mul (ops.sinhF b)).divN d⟩

/-- `asin` in the allocation model (lines 731-747): two temporaries, their
`sqrt` and `log` results, and the final object — always fresh. -/
def asinA (ops : TOps) (σ : ℕ) (t : ObjC) : ObjC × ℕ :=
  let a := t.val.re
  let b := t.val.im
  let s1 := newC σ ⟨((b.mul b).sub (a.mul a)).add (JSNum.fin 1),
                    ((JSNum.fin (-2)).mul a).mul b⟩
  let s2 := sqrtA ops s1.2 s1.1
  let s3 := newC s2.2 ⟨s2.1.val.re.sub b, s2.1.val.im.add a⟩
  let s4 := logA ops s3.2 s3.1
  newC s4.2 ⟨s4.1.val.im, s4.1.val.re.neg⟩

/-- `acos` in the allocation model (lines 754-770): always fresh. -/
def acosA (ops : TOps) (σ : ℕ) (t : ObjC) : ObjC × ℕ :=
  let a := t.val.re
  let b := t.val.im
  let s1 := newC σ ⟨((b.mul b).sub (a.mul a)).add (JSNum.fin 1),
                    ((JSNum.fin (-2)).mul a).mul b⟩
  let s2 := sqrtA ops s1.2 s1.1
  let s3 := newC s2.2 ⟨s2.1.val.re.sub b, s2.1.val.im.add a⟩
  let s4 := logA ops s3.2 s3.1
  newC s4.2 ⟨(ops.piC.divN (JSNum.fin 2)).sub s4.1.val.im, s4.1.val.re⟩

/-- `atan` in the allocation model (lines 777-802): always fresh. -/
def atanA (ops : TOps) (σ : ℕ) (t : ObjC) : ObjC × ℕ :=
  let a := t.val.re
  let b := t.val.im
  if decide (a = JSNum.fin 0) && decide (b = JSNum.fin 1) then
    newC σ ⟨JSNum.fin 0, JSNum.inf true⟩
  else if decide (a = JSNum.fin 0) && decide (b = JSNum.fin (-1)) then
    newC σ ⟨JSNum.fin 0, JSNum.inf false⟩
  else
    let d := (a.mul a).add (((JSNum.fin 1).sub b).mul ((JSNum.fin 1).sub b))
    let s1 := newC σ ⟨(((JSNum.fin 1).sub (b.mul b)).sub (a.mul a)).divN d,
                      ((JSNum.fin (-2)).mul a).divN d⟩
    let s2 := logA ops s1.2 s1.1
    newC s2.2 ⟨(JSNum.fin (-(1 / 2))).mul s2.1.val.im,
               (JSNum.fin (1 / 2)).mul s2.1.val.re⟩

/-- `acot` in the allocation model (lines 809-828): always fresh (the
result object is constructed inside the `atan` call or directly on the
real-axis branch). -/
def acotA (ops : TOps) (σ : ℕ) (t : ObjC) : ObjC × ℕ :=
  let a := t.val.re
  let b := t.val.im
  if decide (b = JSNum.fin 0) then
    newC σ ⟨ops.atan2F (JSNum.fin 1) a, JSNum.fin 0⟩
  else
    let d := (a.mul a).add (b.mul b)
    if decide (d ≠ JSNum.fin 0) then
      let s1 := newC σ ⟨a.divN d, (b.neg).divN d⟩
      atanA ops s1.2 s1.1
    else
      let s1 := newC σ
        ⟨(if decide (a ≠ JSNum.fin 0) then a.divN (JSNum.fin 0) else JSNum.fin 0),
         (if decide (b ≠ JSNum.fin 0) then (b.neg).divN (JSNum.fin 0) else JSNum.fin 0)⟩
      atanA ops s1.2 s1.1

/-- `asec` in the allocation model (lines 835-854): always fresh. -/
def asecA (ops : TOps) (σ : ℕ) (t : ObjC) : ObjC × ℕ :=
  let a := t.val.re
  let b := t.val.im
  if decide (a = JSNum.fin 0) && decide (b = JSNum.fin 0) then
    newC σ ⟨JSNum.fin 0, JSNum.inf true⟩
  else
    let d := (a.mul a).add (b.mul b)
    if decide (d ≠ JSNum.fin 0) then
      let s1 := newC σ ⟨a.divN d, (b.neg).divN d⟩
      acosA ops s1.2 s1.1
    else
      let s1 := newC σ
        ⟨(if decide (a ≠ JSNum.fin 0) then a.divN (JSNum.fin 0) else JSNum.fin 0),
         (if decide (b ≠ JSNum.fin 0) then (b.neg).divN (JSNum.fin 0) else JSNum.fin 0)⟩
      acosA ops s1.2 s1.1

/-- `acsc` in the allocation model (lines 861-880): always fresh. -/
def acscA (ops : TOps) (σ : ℕ) (t : ObjC) : ObjC × ℕ :=
  let a := t.val.re
  let b := t.val.im
  if decide (a = JSNum.fin 0) && decide (b = JSNum.fin 0) then
    newC σ ⟨ops.piC.divN (JSNum.fin 2), JSNum.inf true⟩
  else
    let d := (a.mul a).add (b.mul b)
    if decide (d ≠ JSNum.fin 0) then
      let s1 := newC σ ⟨a.divN d, (b.neg).divN d⟩
      asinA ops s1.2 s1.1
    else
      let s1 := newC σ
        ⟨(if decide (a ≠ JSNum.fin 0) then a.divN (JSNum.fin 0) else JSNum.fin 0),
         (if decide (b ≠ JSNum.fin 0) then (b.neg).divN (JSNum.fin 0) else JSNum.fin 0)⟩
      asinA ops s1.2 s1.1

/-- `sinh` in the allocation model (lines 887-897): always fresh. -/
def sinhA (ops : TOps) (σ : ℕ) (t : ObjC) : ObjC × ℕ :=
  newC σ ⟨(ops.sinhF t.val.re).mul (ops.cosF t.val.im),
          (ops.coshF t.val.re).mul (ops.sinF t.val.im)⟩

/-- `cosh` in the allocation model (lines 904-914): always fresh. -/
def coshA (ops : TOps) (σ : ℕ) (t : ObjC) : ObjC × ℕ :=
  newC σ ⟨(ops.coshF t.val.re).mul (ops.cosF t.val.im),
          (ops.sinhF t.val.re).mul (ops.sinF t.val.im)⟩

/-- `tanh` in the allocation model (lines 921-932): always fresh. -/
def tanhA (ops : TOps) (σ : ℕ) (t : ObjC) : ObjC × ℕ :=
  let a := (JSNum.fin 2).mul t.val.re
  let b := (JSNum.fin 2).mul t.val.im
  let d := (ops.coshF a).add (ops.cosF b)
  newC σ ⟨(ops.sinhF a).divN d, (ops.sinF b).divN d⟩

/-- `coth` in the allocation model (lines 939-950): always fresh. -/
def cothA (ops : TOps) (σ : ℕ) (t : ObjC) : ObjC × ℕ :=
  let a := (JSNum.fin 2).mul t.val.re
  let b := (JSNum.fin 2).mul t.val.im
  let d := (ops.coshF a).sub (ops.cosF b)
  newC σ ⟨(ops.sinhF a).divN d, ((ops.sinF b).neg).divN d⟩

/-- `csch` in the allocation model (lines 957-968): always fresh. -/
def cschA (ops : TOps) (σ : ℕ) (t : ObjC) : ObjC × ℕ :=
  let a := t.val.re
  let b := t.val.im
  let d := (ops.cosF ((JSNum.fin 2).mul b)).sub (ops.coshF ((JSNum.fin 2).mul a))
  newC σ ⟨(((JSNum.fin (-2)).mul (ops.sinhF a)).mul (ops.cosF b)).divN d,
          (((JSNum.fin 2).mul (ops.coshF a)).mul (ops.sinF b)).divN d⟩

/-- `sech` in the allocation model (lines 975-986): always fresh. -/
def sechA (ops : TOps) (σ : ℕ) (t : ObjC) : ObjC × ℕ :=
  let a := t.val.re
  let b := t.val.im
  let d := (ops.cosF ((JSNum.fin 2).mul b)).add (ops.coshF ((JSNum.fin 2).mul a))
  newC σ ⟨(((JSNum.fin 2).mul (ops.coshF a)).mul (ops.cosF b)).divN d,
          (((JSNum.fin (-2)).mul (ops.sinhF a)).mul (ops.sinF b)).divN d⟩

/-- `asinh` in the allocation model (lines 993-1020): always fresh (the
complex branch returns the object constructed inside the final `log`). -/
def asinhA (ops : TOps) (σ : ℕ) (t : ObjC) : ObjC × ℕ :=
  let a := t.val.re
  let b := t.val.im
  if decide (b = JSNum.fin 0) then
    if decide (a = JSNum.fin 0) then newC σ ⟨JSNum.fin 0, JSNum.fin 0⟩
    else
      let x := a.absN
      let r := ops.logF (x.add (ops.sqrtF ((x.mul x).add (JSNum.fin 1))))
      newC σ ⟨if a.ltN (JSNum.fin 0) then r.neg else r, JSNum.fin 0⟩
  else
    let re2 := ((a.mul a).sub (b.mul b)).add (JSNum.fin 1)
    let im2 := ((JSNum.fin 2).mul a).mul b
    let s1 := newC σ ⟨re2, im2⟩
    let s2 := sqrtA ops s1.2 s1.1
    let s3 := newC s2.2 ⟨a.add s2.1.val.re, b.add s2.1.val.im⟩
    logA ops s3.2 s3.1

/-- `acosh` in the allocation model (lines 1027-1061): always fresh. -/
def acoshA (ops : TOps) (σ : ℕ) (t : ObjC) : ObjC × ℕ :=
  let a := t.val.re
  let b := t.val.im
  if decide (b = JSNum.fin 0) then
    if (JSNum.fin 1).ltN a then
      newC σ ⟨ops.logF (a.add ((ops.sqrtF (a.sub (JSNum.fin 1))).mul
        (ops.sqrtF (a.add (JSNum.fin 1))))), JSNum.fin 0⟩
    else if a.ltN (JSNum.fin (-1)) then
      let t2 := ops.sqrtF ((a.mul a).sub (JSNum.fin 1))
      newC σ ⟨ops.logF ((a.neg).add t2), ops.piC⟩
    else newC σ ⟨JSNum.fin 0, ops.acosF a⟩
  else
    let s1 := newC σ ⟨a.sub (JSNum.fin 1), b⟩
    let s2 := sqrtA ops s1.2 s1.1
    let s3 := newC s2.2 ⟨a.add (JSNum.fin 1), b⟩
    let s4 := sqrtA ops s3.2 s3.1
    let s5 := newC s4.2
      ⟨(a.add (s2.1.val.re.mul s4.1.val.re)).sub (s2.1.val.im.mul s4.1.val.im),
       (b.add (s2.1.val.re.mul s4.1.val.im)).add (s2.1.val.im.mul s4.1.val.re)⟩
    logA ops s5.2 s5.1

/-- `atanh` in the allocation model (lines 1068-1139): every branch ends in
a single `new Complex` — always fresh. -/
def atanhA (ops : TOps) (σ : ℕ) (t : ObjC) : ObjC × ℕ :=
  let a := t.val.re
  let b := t.val.im
  if decide (b = JSNum.fin 0) then
    if decide (a = JSNum.fin 0) then newC σ ⟨JSNum.fin 0, JSNum.fin 0⟩
    else if decide (a = JSNum.fin 1) then newC σ ⟨JSNum.inf true, JSNum.fin 0⟩
    else if decide (a = JSNum.fin (-1)) then newC σ ⟨JSNum.inf false, JSNum.fin 0⟩
    else if (JSNum.fin (-1)).ltN a && a.ltN (JSNum.fin 1) then
      newC σ ⟨(JSNum.fin (1 / 2)).mul
        (ops.logF (((JSNum.fin 1).add a).divN ((JSNum.fin 1).sub a))), JSNum.fin 0⟩
    else if (JSNum.fin 1).ltN a then
      let t2 := (a.add (JSNum.fin 1)).divN (a.sub (JSNum.fin 1))
      newC σ ⟨(JSNum.fin (1 / 2)).mul (ops.logF t2), ((ops.piC).neg).divN (JSNum.fin 2)⟩
    else
      let t2 := ((JSNum.fin 1).add a).divN ((JSNum.fin 1).sub a)
      newC σ ⟨(JSNum.fin (1 / 2)).mul (ops.logF t2.neg), (ops.piC).divN (JSNum.fin 2)⟩
  else
    let oneMinus := (JSNum.fin 1).sub a
    let onePlus := (JSNum.fin 1).add a
    let d := (oneMinus.mul oneMinus).add (b.mul b)
    if decide (d = JSNum.fin 0) then
      newC σ
        ⟨(if decide (a ≠ JSNum.fin (-1)) then a.divN (JSNum.fin 0) else JSNum.fin 0),
         (if decide (b ≠ JSNum.fin 0) then b.divN (JSNum.fin 0) else JSNum.fin 0)⟩
    else
      let xr := ((onePlus.mul oneMinus).sub (b.mul b)).divN d
      let xi := ((b.mul oneMinus).add (onePlus.mul b)).divN d
      newC σ ⟨(Cpx.logHypot ops xr xi).divN (JSNum.fin 2),
              (ops.atan2F xi xr).divN (JSNum.fin 2)⟩

/-- `acoth` in the allocation model (lines 1146-1170): always fresh. -/
def acothA (ops : TOps) (σ : ℕ) (t : ObjC) : ObjC × ℕ :=
  let a := t.val.re
  let b := t.val.im
  if decide (a = JSNum.fin 0) && decide (b = JSNum.fin 0) then
    newC σ ⟨JSNum.fin 0, (ops.piC).divN (JSNum.fin 2)⟩
  else
    let d := (a.mul a).add (b.mul b)
    if decide (d ≠ JSNum.fin 0) then
      let s1 := newC σ ⟨a.divN d, (b.neg).divN d⟩
      atanhA ops s1.2 s1.1
    else
      let s1 := newC σ
        ⟨(if decide (a ≠ JSNum.fin 0) then a.divN (JSNum.fin 0) else JSNum.fin 0),
         (if decide (b ≠ JSNum.fin 0) then (b.neg).divN (JSNum.fin 0) else JSNum.fin 0)⟩
      atanhA ops s1.2 s1.1

/-- `acsch` in the allocation model (lines 1177-1211): always fresh. -/
def acschA (ops : TOps) (σ : ℕ) (t : ObjC) : ObjC × ℕ :=
  let a := t.val.re
  let b := t.val.im
  if decide (b = JSNum.fin 0) then
    if decide (a = JSNum.fin 0) then newC σ ⟨JSNum.inf true, JSNum.fin 0⟩
    else
      let inv := (JSNum.fin 1).divN a
      newC σ ⟨ops.logF (inv.add (ops.sqrtF ((inv.mul inv).add (JSNum.fin 1)))),
              JSNum.fin 0⟩
  else
    let d := (a.mul a).add (b.mul b)
    if decide (d ≠ JSNum.fin 0) then
      let s1 := newC σ ⟨a.divN d, (b.neg).divN d⟩
      asinhA ops s1.2 s1.1
    else
      let s1 := newC σ
        ⟨(if decide (a ≠ JSNum.fin 0) then a.divN (JSNum.fin 0) else JSNum.fin 0),
         (if decide (b ≠ JSNum.fin 0) then (b.neg).divN (JSNum.fin 0) else JSNum.fin 0)⟩
      asinhA ops s1.2 s1.1

/-- `asech` in the allocation model (lines 1218-1241): the zero receiver
returns the INFINITY singleton (`return Complex['INFINITY']`, line 1227);
every other branch is fresh. -/
def asechA (ops : TOps) (σ : ℕ) (t : ObjC) : ObjC × ℕ :=
  let a := t.val.re
  let b := t.val.im
  if Cpx.isZero t.val then (oINFINITY, σ)
  else
    let d := (a.mul a).add (b.mul b)
    if decide (d ≠ JSNum.fin 0) then
      let s1 := newC σ ⟨a.divN d, (b.neg).divN d⟩
      acoshA ops s1.2 s1.1
    else
      let s1 := newC σ
        ⟨(if decide (a ≠ JSNum.fin 0) then a.divN (JSNum.fin 0) else JSNum.fin 0),
         (if decide (b ≠ JSNum.fin 0) then (b.neg).divN (JSNum.fin 0) else JSNum.fin 0)⟩
      acoshA ops s1.2 s1.1

/-- `inverse` in the allocation model (lines 1248-1265): the zero receiver
returns the INFINITY singleton and the infinite receiver the ZERO singleton
(lines 1252, 1256); otherwise fresh. -/
def inverseA (σ : ℕ) (t : ObjC) : ObjC × ℕ :=
  if Cpx.isZero t.val then (oINFINITY, σ)
  else if Cpx.isInfinite t.val then (oZERO, σ)
  else
    let a := t.val.re
    let b := t.val.im
    let d := (a.mul a).add (b.mul b)
    newC σ ⟨a.divN d, (b.neg).divN d⟩

/-- The truthiness coercion `places || 0` of the rounding family: an absent,
zero or NaN argument becomes 0. -/
def placesOrZero : Option JSNum → JSNum
  | none => JSNum.fin 0
  | some JSNum.nan => JSNum.fin 0
  | some (JSNum.inf s) => JSNum.inf s
  | some (JSNum.fin q) => if q = 0 then JSNum.fin 0 else JSNum.fin q

/-- `ceil` in the allocation model (lines 1292-1299): always fresh. -/
def ceilA (ops : TOps) (σ : ℕ) (t : ObjC) (p : Option JSNum) : ObjC × ℕ :=
  let places := ops.powF (JSNum.fin 10) (placesOrZero p)
  newC σ ⟨(JSNum.ceilN (t.val.re.mul places)).divN places,
          (JSNum.ceilN (t.val.im.mul places)).divN places⟩

/-- `floor` in the allocation model (lines 1306-1313): always fresh. -/
def floorA (ops : TOps) (σ : ℕ) (t : ObjC) (p : Option JSNum) : ObjC × ℕ :=
  let places := ops.powF (JSNum.fin 10) (placesOrZero p)
  newC σ ⟨(JSNum.floorN (t.val.re.mul places)).divN places,
          (JSNum.floorN (t.val.im.mul places)).divN places⟩

/-- `round` in the allocation model (lines 1320-1327): always fresh. -/
def roundA (ops : TOps) (σ : ℕ) (t : ObjC) (p : Option JSNum) : ObjC × ℕ :=
  let places := ops.powF (JSNum.fin 10) (placesOrZero p)
  newC σ ⟨(JSNum.roundN (t.val.re.mul places)).divN places,
          (JSNum.roundN (t.val.im.mul places)).divN places⟩

/-- `clone` in the allocation model (lines 1349-1352): always fresh. -/
def cloneA (σ : ℕ) (t : ObjC) : ObjC × ℕ :=
  newC σ ⟨t.val.re, t.val.im⟩

/-- The property the amended C9 asserts of one operation call entered with
allocation counter `σ`: the result is either an object created during the
call (its identifier is at least `σ` and below the final counter) or one of
the four pre-allocated singleton constants, returned with the counter
unchanged (no allocation). -/
def FreshOrSingleton (σ : ℕ) (r : ObjC × ℕ) : Prop :=
  (σ ≤ r.1.oid ∧ r.1.oid < r.2) ∨
    ((r.1 = oNAN ∨ r.1 = oINFINITY ∨ r.1 = oZERO ∨ r.1 = oONE) ∧ r.2 = σ)

/-- C1: for every receiver `t` and parsed operand `z` of `div`: if (t zero and
z zero) or (t infinite and z infinite) the result is the NAN singleton; else if
z is zero or t infinite the result is the INFINITY singleton; else if t is zero
or z infinite the result is the ZERO singleton; otherwise, when the divisor's
imaginary part is exactly 0, each component of `t` is divided directly by
`z.re` (lines 384-411). -/
theorem div_pole_and_real_divisor_cases (t z : Cpx) :
    (((Cpx.zeroB t && Cpx.zeroB z) || (Cpx.isInfinite t && Cpx.infinB z)) = true →
      Cpx.div t z = Cpx.NAN)
  ∧ (((Cpx.zeroB t && Cpx.zeroB z) || (Cpx.isInfinite t && Cpx.infinB z)) = false →
      (Cpx.zeroB z || Cpx.isInfinite t) = true →
      Cpx.div t z = Cpx.INFINITY)
  ∧ (((Cpx.zeroB t && Cpx.zeroB z) || (Cpx.isInfinite t && Cpx.infinB z)) = false →
      (Cpx.zeroB z || Cpx.isInfinite t) = false →
      (Cpx.zeroB t || Cpx.infinB z) = true →
      Cpx.div t z = Cpx.ZERO)
  ∧ (((Cpx.zeroB t && Cpx.zeroB z) || (Cpx.isInfinite t && Cpx.infinB z)) = false →
      (Cpx.zeroB z || Cpx.isInfinite t) = false →
      (Cpx.zeroB t || Cpx.infinB z) = false →
      z.im = JSNum.fin 0 →
      Cpx.div t z = ⟨t.re.divN z.re, t.im.divN z.re⟩) := by
  refine ⟨fun h1 => ?_, fun h1 h2 => ?_, fun h1 h2 h3 => ?_, fun h1 h2 h3 h4 => ?_⟩
  · simp only [Cpx.div, h1]
    simp
  · simp only [Cpx.div, h1, h2]
    simp
  · simp only [Cpx.div, h1, h2, h3]
    simp
  · simp only [Cpx.div, h1, h2, h3, h4]
    simp

/-- C1 witness: the four cases at concrete inputs: `0/0 = NaN`, `1/0 = ∞`,
`0/1 = 0`, and `(4+2i)/2` divided componentwise. -/
theorem div_pole_and_real_divisor_cases_witness :
    Cpx.div Cpx.ZERO Cpx.ZERO = Cpx.NAN ∧
    Cpx.div Cpx.ONE Cpx.ZERO = Cpx.INFINITY ∧
    Cpx.div Cpx.ZERO Cpx.ONE = Cpx.ZERO ∧
    Cpx.div ⟨JSNum.fin 4, JSNum.fin 2⟩ ⟨JSNum.fin 2, JSNum.fin 0⟩ =
      ⟨JSNum.fin 2, JSNum.fin 1⟩ :=
  ⟨(div_pole_and_real_divisor_cases Cpx.ZERO Cpx.ZERO).1 (by decide),
   (div_pole_and_real_divisor_cases Cpx.ONE Cpx.ZERO).2.1 (by decide) (by decide),
   (div_pole_and_real_divisor_cases Cpx.ZERO Cpx.ONE).2.2.1 (by decide) (by decide) (by decide),
   ((div_pole_and_real_divisor_cases ⟨JSNum.fin 4, JSNum.fin 2⟩
      ⟨JSNum.fin 2, JSNum.fin 0⟩).2.2.2 (by decide) (by decide) (by decide) rfl).trans
      (by simp [JSNum.divN]; norm_num)⟩

/-- C2 counterexample: the claim states `isInfinite` is true iff the value is
not finite AND not NaN; at the NAN singleton the code returns true although
the value is NaN, so the claimed biconditional is false there. -/
theorem isInfinite_claim_counterexample :
    ¬ (Cpx.isInfinite Cpx.NAN = true ↔
        (Cpx.isFinite Cpx.NAN = false ∧ Cpx.isNaN Cpx.NAN = false)) := by decide

/-- C2 amended: `isInfinite` returns true iff the value is not finite (some
component non-finite), with no NaN exclusion; in particular the NAN value is
classified as infinite. -/
theorem isInfinite_iff_some_component_not_finite :
    (∀ z : Cpx, Cpx.isInfinite z = true ↔
      (z.re.isFiniteN = false ∨ z.im.isFiniteN = false))
  ∧ Cpx.isInfinite Cpx.NAN = true := by
  constructor
  · intro z
    obtain ⟨zr, zi⟩ := z
    cases zr <;> cases zi <;>
      simp [Cpx.isInfinite, Cpx.isFinite, JSNum.isFiniteN]
  · decide

/-- C5: `equals` is true iff both componentwise absolute differences are at
most `EPSILON = 1e-15`; it is reflexive and symmetric on finite values, and
`INFINITY.equals(INFINITY)` is false (because `∞ - ∞` is NaN and every
comparison with NaN is false). -/
theorem equals_epsilon_spec :
    (∀ a b c d : ℚ,
      Cpx.equals ⟨JSNum.fin a, JSNum.fin b⟩ ⟨JSNum.fin c, JSNum.fin d⟩ = true ↔
        (|a - c| ≤ Cpx.EPSILON ∧ |b - d| ≤ Cpx.EPSILON))
  ∧ (∀ a b : ℚ,
      Cpx.equals ⟨JSNum.fin a, JSNum.fin b⟩ ⟨JSNum.fin a, JSNum.fin b⟩ = true)
  ∧ (∀ a b c d : ℚ,
      Cpx.equals ⟨JSNum.fin a, JSNum.fin b⟩ ⟨JSNum.fin c, JSNum.fin d⟩ =
        Cpx.equals ⟨JSNum.fin c, JSNum.fin d⟩ ⟨JSNum.fin a, JSNum.fin b⟩)
  ∧ Cpx.equals Cpx.INFINITY Cpx.INFINITY = false := by
  refine ⟨fun a b c d => ?_, fun a b => ?_, fun a b c d => ?_, by decide⟩
  · simp [Cpx.equals, JSNum.sub, JSNum.absN, JSNum.leN, abs_sub_comm]
  · simp [Cpx.equals, JSNum.sub, JSNum.absN, JSNum.leN, Cpx.EPSILON]
  · simp only [Cpx.equals, JSNum.sub, JSNum.absN, JSNum.leN]
    rw [abs_sub_comm c a, abs_sub_comm d b]

/-- C5 witness: reflexivity instance at the origin. -/
theorem equals_epsilon_spec_witness :
    Cpx.equals Cpx.ZERO Cpx.ZERO = true :=
  equals_epsilon_spec.2.1 0 0

/-- C10: for a finite receiver and a parsed operand with a NaN component, the
operand passes the infinity test `!(isFinite(re) && isFinite(im))`, so `add`
and `sub` both return the INFINITY singleton rather than a NaN value. -/
theorem add_sub_nan_operand_gives_infinity (t z : Cpx)
    (ht : Cpx.isFinite t = true) (hz : Cpx.isNaN z = true) :
    Cpx.add t z = Cpx.INFINITY ∧ Cpx.sub t z = Cpx.INFINITY := by
  have h1 : Cpx.isInfinite t = false := by
    simp [Cpx.isInfinite, ht]
  have h2 : Cpx.infinB z = true := by
    obtain ⟨zr, zi⟩ := z
    cases zr <;> cases zi <;>
      simp_all [Cpx.isNaN, JSNum.isNaNN, Cpx.infinB, JSNum.isFiniteN]
  exact ⟨by simp [Cpx.add, h1, h2], by simp [Cpx.sub, h1, h2]⟩

/-- C10 witness: `0 + NaN` and `0 - NaN` (operand `(NaN, 0)`) give INFINITY. -/
theorem add_sub_nan_operand_gives_infinity_witness :
    Cpx.add Cpx.ZERO ⟨JSNum.nan, JSNum.fin 0⟩ = Cpx.INFINITY ∧
    Cpx.sub Cpx.ZERO ⟨JSNum.nan, JSNum.fin 0⟩ = Cpx.INFINITY :=
  add_sub_nan_operand_gives_infinity Cpx.ZERO ⟨JSNum.nan, JSNum.fin 0⟩
    (by decide) (by decide)

/-- C3: construction errors arise exactly from unrecognized shape or grammar:
a value of non-numeric type (boolean), malformed text such as "foo" or the
empty string, a sequence not of length two, and a record with no recognized
key pair all raise; absent input, numbers (including NaN and infinities),
re/im records, polar records, two-element sequences and grammatical text all
succeed without raising.  Errors are modelled as `Except.error`, produced
instead of (hence before) any result pair. -/
theorem parse_invalid_argument_spec (ops : TOps) :
    (∀ bv : Bool, parse ops (JSVal.bool bv) none = .error ())
  ∧ parse ops (JSVal.str "foo") none = .error ()
  ∧ (∀ l : List JSNum, l.length ≠ 2 → parse ops (JSVal.arr l) none = .error ())
  ∧ parse ops JSVal.objOther none = .error ()
  ∧ parse ops JSVal.undef none = .ok (JSVal.num (JSNum.fin 0), JSVal.num (JSNum.fin 0))
  ∧ parse ops JSVal.jsnull none = .ok (JSVal.num (JSNum.fin 0), JSVal.num (JSNum.fin 0))
  ∧ (∀ x : JSNum, parse ops (JSVal.num x) none = .ok (JSVal.num x, JSVal.num (JSNum.fin 0)))
  ∧ (∀ r i : JSNum, parse ops (JSVal.objReIm r i) none = .ok (JSVal.num r, JSVal.num i))
  ∧ (∀ ab ar : JSNum, ∃ p, parse ops (JSVal.objAbsArg ab ar) none = .ok p)
  ∧ (∀ r phi : JSNum, ∃ p, parse ops (JSVal.objRPhi r phi) none = .ok p)
  ∧ (∀ x y : JSNum, parse ops (JSVal.arr [x, y]) none = .ok (JSVal.num x, JSVal.num y))
  ∧ parse ops (JSVal.str "4+3i") none =
      .ok (JSVal.num (JSNum.fin 4), JSVal.num (JSNum.fin 3))
  ∧ parse ops (JSVal.str "") none = .error () := by
  refine ⟨fun bv => rfl, rfl, ?_, rfl, rfl, rfl, fun x => rfl, fun r i => rfl,
    ?_, ?_, fun x y => rfl, by with_unfolding_all rfl, rfl⟩
  · intro l h
    match l with
    | [] => rfl
    | [x] => rfl
    | [x, y] => exact absurd rfl h
    | x :: y :: z :: rest => rfl
  · intro ab ar
    simp only [parse]
    split
    · exact ⟨_, rfl⟩
    · exact ⟨_, rfl⟩
  · intro r phi
    simp only [parse]
    split
    · exact ⟨_, rfl⟩
    · exact ⟨_, rfl⟩

/-- C3 witness: the empty sequence (length 0, not 2) raises. -/
theorem parse_invalid_argument_spec_witness :
    parse ops0 (JSVal.arr []) none = .error () :=
  (parse_invalid_argument_spec ops0).2.2.1 [] (by decide)

/-- C7 counterexample: with two arguments present, the components are stored
verbatim, not coerced to numeric: `parse("foo", 1)` keeps the raw string
"foo" as its `re` component, whereas the claim requires the NaN number. -/
theorem parse_two_args_counterexample :
    parse ops0 (JSVal.str "foo") (some (JSVal.num (JSNum.fin 1))) =
      .ok (JSVal.str "foo", JSVal.num (JSNum.fin 1)) ∧
    JSVal.str "foo" ≠ JSVal.num JSNum.nan :=
  ⟨rfl, by decide⟩

/-- C7 amended: when `b` is present and `a` is neither undefined nor null,
`parse` returns `(a, b)` verbatim with no numeric coercion and raises no
error; a non-numeric argument is stored as-is (the concluding coercing NaN
check observes it but deliberately does not throw). -/
theorem parse_two_args_verbatim (ops : TOps) (a bv : JSVal)
    (h1 : a ≠ JSVal.undef) (h2 : a ≠ JSVal.jsnull) :
    parse ops a (some bv) = .ok (a, bv) := by
  cases a <;> first | rfl | exact absurd rfl h1 | exact absurd rfl h2

/-- C7 amended witness: two numeric arguments are stored as given. -/
theorem parse_two_args_verbatim_witness :
    parse ops0 (JSVal.num (JSNum.fin 1)) (some (JSVal.num (JSNum.fin 2))) =
      .ok (JSVal.num (JSNum.fin 1), JSVal.num (JSNum.fin 2)) :=
  parse_two_args_verbatim ops0 _ _ (by decide) (by decide)

/-- C4: `pow` applied to an operand that parses to exactly `(0, 0)` returns
the ONE singleton for every base (the zero-exponent test precedes every
other branch), including the ZERO base: `0^0 = 1`; this holds for every
interpretation of the transcendental primitives. -/
theorem pow_zero_exponent_gives_one :
    (∀ (ops : TOps) (t : Cpx), Cpx.pow ops t ⟨JSNum.fin 0, JSNum.fin 0⟩ = Cpx.ONE)
  ∧ (∀ ops : TOps, Cpx.pow ops Cpx.ZERO ⟨JSNum.fin 0, JSNum.fin 0⟩ = Cpx.ONE) := by
  have h : ∀ (ops : TOps) (t : Cpx), Cpx.pow ops t ⟨JSNum.fin 0, JSNum.fin 0⟩ = Cpx.ONE := by
    intro ops t
    simp [Cpx.pow, Cpx.zeroB]
  exact ⟨h, fun ops => h ops Cpx.ZERO⟩

/-- C8: on a purely real input the `acot` branch returns
`(atan2(1, re), 0)` for every interpretation of the primitives and every
real component (including NaN and infinite ones); and the mathematical
`atan2(1, x)` lands in the conventional `(0, π)` range for every finite `x`,
with `acot(1) = π/4`, `acot(0) = π/2` and `acot(-1) = 3π/4`. -/
theorem acot_real_axis_spec :
    (∀ (ops : TOps) (a : JSNum),
      Cpx.acot ops ⟨a, JSNum.fin 0⟩ = ⟨ops.atan2F (JSNum.fin 1) a, JSNum.fin 0⟩)
  ∧ (∀ x : ℝ, atan2R 1 x ∈ Set.Ioo 0 Real.pi)
  ∧ atan2R 1 1 = Real.pi / 4
  ∧ atan2R 1 0 = Real.pi / 2
  ∧ atan2R 1 (-1) = 3 * Real.pi / 4 := by
  refine ⟨fun ops a => by simp [Cpx.acot], fun x => ?_, ?_, ?_, ?_⟩
  · have hpi := Real.pi_pos
    unfold atan2R
    split_ifs with h1 h2 h3 h4 h5
    · have hx : (0 : ℝ) < 1 / x := by positivity
      have hlo : 0 < Real.arctan (1 / x) := by
        have := Real.arctan_strictMono hx
        rwa [Real.arctan_zero] at this
      have hhi := Real.arctan_lt_pi_div_two (1 / x)
      exact ⟨hlo, by linarith⟩
    · have hx : 1 / x < 0 := by
        apply div_neg_of_pos_of_neg one_pos h2
      have hlo := Real.neg_pi_div_two_lt_arctan (1 / x)
      have hhi : Real.arctan (1 / x) < 0 := by
        have := Real.arctan_strictMono hx
        rwa [Real.arctan_zero] at this
      exact ⟨by linarith, by linarith⟩
    · norm_num at h3
    · exact ⟨by linarith, by linarith⟩
    · norm_num at h5
    · norm_num at h4
  · rw [atan2R, if_pos one_pos]
    norm_num [Real.arctan_one]
  · rw [atan2R]
    norm_num
  · rw [atan2R]
    norm_num [Real.arctan_neg, Real.arctan_one]
    ring

/-- C6: `toString` renders a NaN value as "NaN" and a (non-NaN) infinite
value as "Infinity"; a finite component within EPSILON of zero is snapped to
exactly 0 (the imaginary case here, yielding the purely-real rendering of
the snapped real part); and for a non-snapped imaginary part the real part
is rendered only if nonzero (after snapping), followed by a sign token
(" + " or " - ", or a bare "-" with no real part), the imaginary magnitude
unless it is exactly 1, and a trailing "i". -/
theorem toString_format_spec (render : ℚ → String) (z : Cpx) :
    (Cpx.isNaN z = true → Cpx.toString render z = "NaN")
  ∧ (Cpx.isNaN z = false → Cpx.isInfinite z = true →
      Cpx.toString render z = "Infinity")
  ∧ (∀ a b : ℚ, z.re = JSNum.fin a → z.im = JSNum.fin b → |b| < Cpx.EPSILON →
      Cpx.toString render z = render (if |a| < Cpx.EPSILON then 0 else a))
  ∧ (∀ a b : ℚ, z.re = JSNum.fin a → z.im = JSNum.fin b → ¬ |b| < Cpx.EPSILON →
      Cpx.toString render z =
        (if |a| < Cpx.EPSILON then (if b < 0 then "-" else "")
         else render a ++ (if b < 0 then " - " else " + ")) ++
        (if |b| = 1 then "" else render |b|) ++ "i") := by
  refine ⟨fun h1 => ?_, fun h1 h2 => ?_,
    fun a b ha hb hsnap => ?_, fun a b ha hb hsnap => ?_⟩
  · simp [Cpx.toString, h1]
  · simp [Cpx.toString, h1, h2]
  · obtain ⟨zr, zi⟩ := z
    simp only at ha hb
    subst ha hb
    by_cases hA : |a| < Cpx.EPSILON <;>
      simp [Cpx.toString, Cpx.isNaN, JSNum.isNaNN, Cpx.isInfinite, Cpx.isFinite,
        JSNum.isFiniteN, JSNum.absN, JSNum.ltN, Cpx.renderJS, hsnap, hA]
  · obtain ⟨zr, zi⟩ := z
    simp only at ha hb
    subst ha hb
    have hbne : b ≠ 0 := by
      intro h
      rw [h, abs_zero] at hsnap
      exact hsnap (by norm_num [Cpx.EPSILON])
    have hlt1 : ¬ (1 : ℚ) < Cpx.EPSILON := by norm_num [Cpx.EPSILON]
    rcases lt_or_le b 0 with hbn | hbp
    · have habs : |b| = -b := abs_of_neg hbn
      have hsnap2 : ¬ -b < Cpx.EPSILON := by rwa [habs] at hsnap
      by_cases hA : |a| < Cpx.EPSILON
      · by_cases hone : -b = 1 <;>
          simp [Cpx.toString, Cpx.isNaN, JSNum.isNaNN, Cpx.isInfinite, Cpx.isFinite,
            JSNum.isFiniteN, JSNum.absN, JSNum.ltN, JSNum.neg, Cpx.renderJS,
            hsnap, hA, hbn, hbne, habs, hone, hlt1, hsnap2, String.append_assoc]
      · have hane : a ≠ 0 := by
          intro h
          rw [h, abs_zero] at hA
          exact hA (by norm_num [Cpx.EPSILON])
        by_cases hone : -b = 1 <;>
          simp [Cpx.toString, Cpx.isNaN, JSNum.isNaNN, Cpx.isInfinite, Cpx.isFinite,
            JSNum.isFiniteN, JSNum.absN, JSNum.ltN, JSNum.neg, Cpx.renderJS,
            hsnap, hA, hane, hbn, hbne, habs, hone, hlt1, hsnap2, String.append_assoc]
    · have hbpos : 0 < b := lt_of_le_of_ne hbp (Ne.symm hbne)
      have habs : |b| = b := abs_of_pos hbpos
      have hnn : ¬ b < 0 := not_lt.mpr hbp
      have hsnap2 : ¬ b < Cpx.EPSILON := by rwa [habs] at hsnap
      have h10 : ¬ (1 : ℚ) < 0 := by norm_num
      by_cases hA : |a| < Cpx.EPSILON
      · by_cases hone : b = 1 <;>
          simp [Cpx.toString, Cpx.isNaN, JSNum.isNaNN, Cpx.isInfinite, Cpx.isFinite,
            JSNum.isFiniteN, JSNum.absN, JSNum.ltN, JSNum.neg, Cpx.renderJS,
            hsnap, hA, hnn, hbne, habs, hone, hlt1, hsnap2, h10, String.append_assoc]
      · have hane : a ≠ 0 := by
          intro h
          rw [h, abs_zero] at hA
          exact hA (by norm_num [Cpx.EPSILON])
        by_cases hone : b = 1 <;>
          simp [Cpx.toString, Cpx.isNaN, JSNum.isNaNN, Cpx.isInfinite, Cpx.isFinite,
            JSNum.isFiniteN, JSNum.absN, JSNum.ltN, JSNum.neg, Cpx.renderJS,
            hsnap, hA, hane, hnn, hbne, habs, hone, hlt1, hsnap2, h10, String.append_assoc]

/-- C6 witness: the value `3 + 4i` under a constant rendering "R" of finite
numbers formats as "R + Ri". -/
theorem toString_format_spec_witness :
    Cpx.toString (fun _ => "R") ⟨JSNum.fin 3, JSNum.fin 4⟩ = "R + Ri" := by
  have h := (toString_format_spec (fun _ => "R") ⟨JSNum.fin 3, JSNum.fin 4⟩).2.2.2
    3 4 rfl rfl (by norm_num [Cpx.EPSILON])
  rw [h]
  norm_num [Cpx.EPSILON]
  rfl

/-- A result that is fresh (allocated during the call, one allocation at
the end) satisfies the amended property. -/
theorem freshOfLe {σ : ℕ} {r : ObjC × ℕ}
    (h : σ ≤ r.1.oid ∧ r.2 = r.1.oid + 1) : FreshOrSingleton σ r :=
  Or.inl ⟨h.1, by omega⟩

/-- A directly returned `new Complex` satisfies the amended property. -/
theorem freshNew {σ : ℕ} {v : Cpx} : FreshOrSingleton σ (newC σ v) :=
  Or.inl ⟨le_refl _, Nat.lt_succ_self _⟩

/-- A NAN singleton return satisfies the amended property. -/
theorem singNAN {σ : ℕ} : FreshOrSingleton σ (oNAN, σ) :=
  Or.inr ⟨Or.inl rfl, rfl⟩

/-- An INFINITY singleton return satisfies the amended property. -/
theorem singINF {σ : ℕ} : FreshOrSingleton σ (oINFINITY, σ) :=
  Or.inr ⟨Or.inr (Or.inl rfl), rfl⟩

/-- A ZERO singleton return satisfies the amended property. -/
theorem singZERO {σ : ℕ} : FreshOrSingleton σ (oZERO, σ) :=
  Or.inr ⟨Or.inr (Or.inr (Or.inl rfl)), rfl⟩

/-- A ONE singleton return satisfies the amended property. -/
theorem singONE {σ : ℕ} : FreshOrSingleton σ (oONE, σ) :=
  Or.inr ⟨Or.inr (Or.inr (Or.inr rfl)), rfl⟩

/-- `sqrt` allocates exactly one object. -/
theorem sqrtA_snd (ops : TOps) (σ : ℕ) (t : ObjC) : (sqrtA ops σ t).2 = σ + 1 := by
  simp only [sqrtA, newC]
  split_ifs <;> rfl

/-- `sqrt` returns the object it allocates. -/
theorem sqrtA_alloc (ops : TOps) (σ : ℕ) (t : ObjC) :
    σ ≤ (sqrtA ops σ t).1.oid ∧ (sqrtA ops σ t).2 = (sqrtA ops σ t).1.oid + 1 := by
  simp only [sqrtA, newC]
  split_ifs <;> exact ⟨le_refl _, rfl⟩

/-- `exp` returns the object it allocates. -/
theorem expA_alloc (ops : TOps) (σ : ℕ) (t : ObjC) :
    σ ≤ (expA ops σ t).1.oid ∧ (expA ops σ t).2 = (expA ops σ t).1.oid + 1 := by
  simp only [expA, newC]
  split_ifs <;> exact ⟨le_refl _, rfl⟩

/-- `atan` returns the last object it allocates. -/
theorem atanA_alloc (ops : TOps) (σ : ℕ) (t : ObjC) :
    σ ≤ (atanA ops σ t).1.oid ∧ (atanA ops σ t).2 = (atanA ops σ t).1.oid + 1 := by
  simp only [atanA, logA, newC]
  split_ifs <;> exact ⟨by dsimp only; omega, rfl⟩

/-- `atanh` returns the object it allocates. -/
theorem atanhA_alloc (ops : TOps) (σ : ℕ) (t : ObjC) :
    σ ≤ (atanhA ops σ t).1.oid ∧ (atanhA ops σ t).2 = (atanhA ops σ t).1.oid + 1 := by
  simp only [atanhA, newC]
  split_ifs <;> exact ⟨le_refl _, rfl⟩

/-- `asin` returns the last object it allocates. -/
theorem asinA_alloc (ops : TOps) (σ : ℕ) (t : ObjC) :
    σ ≤ (asinA ops σ t).1.oid ∧ (asinA ops σ t).2 = (asinA ops σ t).1.oid + 1 := by
  simp [asinA, logA, newC, sqrtA_snd]
  omega

/-- `acos` returns the last object it allocates. -/
theorem acosA_alloc (ops : TOps) (σ : ℕ) (t : ObjC) :
    σ ≤ (acosA ops σ t).1.oid ∧ (acosA ops σ t).2 = (acosA ops σ t).1.oid + 1 := by
  simp [acosA, logA, newC, sqrtA_snd]
  omega

/-- `asinh` returns the last object it allocates. -/
theorem asinhA_alloc (ops : TOps) (σ : ℕ) (t : ObjC) :
    σ ≤ (asinhA ops σ t).1.oid ∧ (asinhA ops σ t).2 = (asinhA ops σ t).1.oid + 1 := by
  simp only [asinhA, logA, newC, sqrtA_snd]
  split_ifs <;> (simp [sqrtA_snd]; try omega)

/-- `acosh` returns the last object it allocates. -/
theorem acoshA_alloc (ops : TOps) (σ : ℕ) (t : ObjC) :
    σ ≤ (acoshA ops σ t).1.oid ∧ (acoshA ops σ t).2 = (acoshA ops σ t).1.oid + 1 := by
  simp only [acoshA, logA, newC, sqrtA_snd]
  split_ifs <;> (simp [sqrtA_snd]; try omega)

/-- `acot` returns an object allocated during the call. -/
theorem acotA_alloc (ops : TOps) (σ : ℕ) (t : ObjC) :
    σ ≤ (acotA ops σ t).1.oid ∧ (acotA ops σ t).2 = (acotA ops σ t).1.oid + 1 := by
  simp only [acotA, newC]
  split_ifs
  all_goals first
    | exact ⟨le_refl _, rfl⟩
    | exact ⟨le_trans (Nat.le_succ σ) (atanA_alloc ops (σ + 1) _).1,
        (atanA_alloc ops (σ + 1) _).2⟩

/-- `asec` returns an object allocated during the call. -/
theorem asecA_alloc (ops : TOps) (σ : ℕ) (t : ObjC) :
    σ ≤ (asecA ops σ t).1.oid ∧ (asecA ops σ t).2 = (asecA ops σ t).1.oid + 1 := by
  simp only [asecA, newC]
  split_ifs
  all_goals first
    | exact ⟨le_refl _, rfl⟩
    | exact ⟨le_trans (Nat.le_succ σ) (acosA_alloc ops (σ + 1) _).1,
        (acosA_alloc ops (σ + 1) _).2⟩

/-- `acsc` returns an object allocated during the call. -/
theorem acscA_alloc (ops : TOps) (σ : ℕ) (t : ObjC) :
    σ ≤ (acscA ops σ t).1.oid ∧ (acscA ops σ t).2 = (acscA ops σ t).1.oid + 1 := by
  simp only [acscA, newC]
  split_ifs
  all_goals first
    | exact ⟨le_refl _, rfl⟩
    | exact ⟨le_trans (Nat.le_succ σ) (asinA_alloc ops (σ + 1) _).1,
        (asinA_alloc ops (σ + 1) _).2⟩

/-- `acoth` returns an object allocated during the call. -/
theorem acothA_alloc (ops : TOps) (σ : ℕ) (t : ObjC) :
    σ ≤ (acothA ops σ t).1.oid ∧ (acothA ops σ t).2 = (acothA ops σ t).1.oid + 1 := by
  simp only [acothA, newC]
  split_ifs
  all_goals first
    | exact ⟨le_refl _, rfl⟩
    | exact ⟨le_trans (Nat.le_succ σ) (atanhA_alloc ops (σ + 1) _).1,
        (atanhA_alloc ops (σ + 1) _).2⟩

/-- `acsch` returns an object allocated during the call. -/
theorem acschA_alloc (ops : TOps) (σ : ℕ) (t : ObjC) :
    σ ≤ (acschA ops σ t).1.oid ∧ (acschA ops σ t).2 = (acschA ops σ t).1.oid + 1 := by
  simp only [acschA, newC]
  split_ifs
  all_goals first
    | exact ⟨le_refl _, rfl⟩
    | exact ⟨le_trans (Nat.le_succ σ) (asinhA_alloc ops (σ + 1) _).1,
        (asinhA_alloc ops (σ + 1) _).2⟩

/-- `add` returns a fresh object or the NAN/INFINITY singleton. -/
theorem addA_frs (σ : ℕ) (t z : ObjC) : FreshOrSingleton σ (addA σ t z) := by
  unfold addA
  split_ifs <;> first | exact singNAN | exact singINF | exact freshNew

/-- `sub` returns a fresh object or the NAN/INFINITY singleton. -/
theorem subA_frs (σ : ℕ) (t z : ObjC) : FreshOrSingleton σ (subA σ t z) := by
  unfold subA
  split_ifs <;> first | exact singNAN | exact singINF | exact freshNew

/-- `mul` returns a fresh object or the NAN/INFINITY singleton. -/
theorem mulA_frs (σ : ℕ) (t z : ObjC) : FreshOrSingleton σ (mulA σ t z) := by
  unfold mulA
  split_ifs <;> first | exact singNAN | exact singINF | exact freshNew

/-- `div` returns a fresh object or the NAN/INFINITY/ZERO singleton. -/
theorem divA_frs (σ : ℕ) (t z : ObjC) : FreshOrSingleton σ (divA σ t z) := by
  unfold divA
  split_ifs <;> first | exact singNAN | exact singINF | exact singZERO | exact freshNew

/-- `pow` returns a fresh object or the ONE/ZERO singleton. -/
theorem powA_frs (ops : TOps) (σ : ℕ) (t z : ObjC) :
    FreshOrSingleton σ (powA ops σ t z) := by
  simp only [powA]
  repeat' split
  all_goals first | exact singONE | exact singZERO | exact freshNew

/-- `inverse` returns a fresh object or the INFINITY/ZERO singleton. -/
theorem inverseA_frs (σ : ℕ) (t : ObjC) : FreshOrSingleton σ (inverseA σ t) := by
  unfold inverseA
  split_ifs <;> first | exact singINF | exact singZERO | exact freshNew

/-- `asech` returns a fresh object or the INFINITY singleton. -/
theorem asechA_frs (ops : TOps) (σ : ℕ) (t : ObjC) :
    FreshOrSingleton σ (asechA ops σ t) := by
  simp only [asechA, newC]
  split_ifs
  all_goals first
    | exact singINF
    | exact freshOfLe ⟨le_trans (Nat.le_succ σ) (acoshA_alloc ops (σ + 1) _).1,
        (acoshA_alloc ops (σ + 1) _).2⟩

/-- C9 counterexample: the claim that every public operation returns a newly
created value is false on two pole branches: `Complex.ZERO.div(Complex.ZERO)`
returns the pre-existing NAN singleton constant (`return Complex['NAN']`,
line 395) and `Complex.ONE.pow(Complex.ZERO)` returns the pre-existing ONE
singleton constant (`return Complex['ONE']`, line 446): with allocation
counter 4, both results carry identifiers of the initialization-time
singletons (below the counter) and the counter does not advance. -/
theorem div_returns_singleton_counterexample :
    ((divA 4 oZERO oZERO).1 = oNAN ∧ (divA 4 oZERO oZERO).1.oid < 4 ∧
      (divA 4 oZERO oZERO).2 = 4) ∧
    ((powA ops0 4 oONE oZERO).1 = oONE ∧ (powA ops0 4 oONE oZERO).1.oid < 4 ∧
      (powA ops0 4 oONE oZERO).2 = 4) := by decide

/-- C9 amended: every public operation that returns a Complex value returns
either an object newly created during the call (`new Complex(...)` — its
identifier is at least the entry counter and below the exit counter) or one
of the four pre-allocated singleton constants NAN, INFINITY, ZERO, ONE on
the documented shortcut branches, with the allocation counter unchanged; no
operation mutates the fields of its receiver or operands (all are pure
functions of their inputs' fields, as in the source, which never assigns to
an existing object). -/
theorem operations_fresh_or_singleton (ops : TOps) (σ : ℕ) (t z : ObjC)
    (p : Option JSNum) :
    FreshOrSingleton σ (signA ops σ t)
  ∧ FreshOrSingleton σ (addA σ t z)
  ∧ FreshOrSingleton σ (subA σ t z)
  ∧ FreshOrSingleton σ (mulA σ t z)
  ∧ FreshOrSingleton σ (divA σ t z)
  ∧ FreshOrSingleton σ (powA ops σ t z)
  ∧ FreshOrSingleton σ (sqrtA ops σ t)
  ∧ FreshOrSingleton σ (expA ops σ t)
  ∧ FreshOrSingleton σ (expm1A ops σ t)
  ∧ FreshOrSingleton σ (logA ops σ t)
  ∧ FreshOrSingleton σ (sinA ops σ t)
  ∧ FreshOrSingleton σ (cosA ops σ t)
  ∧ FreshOrSingleton σ (tanA ops σ t)
  ∧ FreshOrSingleton σ (cotA ops σ t)
  ∧ FreshOrSingleton σ (secA ops σ t)
  ∧ FreshOrSingleton σ (cscA ops σ t)
  ∧ FreshOrSingleton σ (asinA ops σ t)
  ∧ FreshOrSingleton σ (acosA ops σ t)
  ∧ FreshOrSingleton σ (atanA ops σ t)
  ∧ FreshOrSingleton σ (acotA ops σ t)
  ∧ FreshOrSingleton σ (asecA ops σ t)
  ∧ FreshOrSingleton σ (acscA ops σ t)
  ∧ FreshOrSingleton σ (sinhA ops σ t)
  ∧ FreshOrSingleton σ (coshA ops σ t)
  ∧ FreshOrSingleton σ (tanhA ops σ t)
  ∧ FreshOrSingleton σ (cothA ops σ t)
  ∧ FreshOrSingleton σ (cschA ops σ t)
  ∧ FreshOrSingleton σ (sechA ops σ t)
  ∧ FreshOrSingleton σ (asinhA ops σ t)
  ∧ FreshOrSingleton σ (acoshA ops σ t)
  ∧ FreshOrSingleton σ (atanhA ops σ t)
  ∧ FreshOrSingleton σ (acothA ops σ t)
  ∧ FreshOrSingleton σ (acschA ops σ t)
  ∧ FreshOrSingleton σ (asechA ops σ t)
  ∧ FreshOrSingleton σ (inverseA σ t)
  ∧ FreshOrSingleton σ (conjugateA σ t)
  ∧ FreshOrSingleton σ (negA σ t)
  ∧ FreshOrSingleton σ (ceilA ops σ t p)
  ∧ FreshOrSingleton σ (floorA ops σ t p)
  ∧ FreshOrSingleton σ (roundA ops σ t p)
  ∧ FreshOrSingleton σ (cloneA σ t) :=
  ⟨freshNew, addA_frs σ t z, subA_frs σ t z, mulA_frs σ t z, divA_frs σ t z,
   powA_frs ops σ t z, freshOfLe (sqrtA_alloc ops σ t), freshOfLe (expA_alloc ops σ t),
   freshNew, freshNew, freshNew, freshNew, freshNew, freshNew, freshNew, freshNew,
   freshOfLe (asinA_alloc ops σ t), freshOfLe (acosA_alloc ops σ t),
   freshOfLe (atanA_alloc ops σ t), freshOfLe (acotA_alloc ops σ t),
   freshOfLe (asecA_alloc ops σ t), freshOfLe (acscA_alloc ops σ t),
   freshNew, freshNew, freshNew, freshNew, freshNew, freshNew,
   freshOfLe (asinhA_alloc ops σ t), freshOfLe (acoshA_alloc ops σ t),
   freshOfLe (atanhA_alloc ops σ t), freshOfLe (acothA_alloc ops σ t),
   freshOfLe (acschA_alloc ops σ t), asechA_frs ops σ t, inverseA_frs σ t,
   freshNew, freshNew, freshNew, freshNew, freshNew, freshNew⟩
